import Mathlib

/-! Verification of `generate_pdf` from `src/src-tauri/src/commands.rs`.

The command is a single linear pipeline:

  let mut document = Document::new();
  let page = document.start_page_with(PageSettings::from_wh(300.0, 600.0).unwrap());
  page.finish();
  let pdf = document.finish().unwrap();
  let path = Path::new(&file_path);
  std::fs::write(path, &pdf).unwrap();
  eprintln!(...);
  Ok(path.display().to_string())

The PDF-authoring library (krilla) and the operating system are external
collaborators; their outcomes are modelled by an `Env` record: whether
`PageSettings::from_wh` succeeds on given dimensions, what byte buffer (or
error) `Document::finish` produces for a given page list, and whether the
filesystem write at a given path succeeds.  The function itself is embedded
as a pure state transformer returning its outcome, the updated filesystem,
and a trace of the external effects it performed, in order.

The dimension literals `300.0` and `600.0` are IEEE-754 doubles that
represent the integers 300 and 600 exactly, so dimensions are modelled as
exact rationals.

In Rust, `.unwrap()` on an error value does not return: it panics.  The
embedding makes that a distinct `Outcome.panic` constructor, separate from
the two variants of the declared return type `Result<String, String>`. -/

/-- Page dimensions handed to `PageSettings::from_wh` (PDF user-space units). -/
structure PageSettings where
  width : ℚ
  height : ℚ
deriving DecidableEq

/-- External effects performed by `generate_pdf`, in program order.
`draw` (drawing content onto a page) and `fsRead` (reading an existing
file) are possible effects of the collaborators that this code never
performs; they are in the type so that their absence is a statement about
the trace, not about the vocabulary. -/
inductive Event where
  | docNew : Event
  | pageStart : PageSettings → Event
  | draw : Event
  | pageFinish : Event
  | docFinish : Bool → Event
  | fsRead : String → Event
  | fsWrite : String → List Nat → Event
  | log : String → Event
deriving DecidableEq

/-- Holds exactly on the `docNew` event. -/
def Event.isDocNew : Event → Bool
  | .docNew => true
  | _ => false

/-- Holds exactly on `pageStart` events. -/
def Event.isPageStart : Event → Bool
  | .pageStart _ => true
  | _ => false

/-- Holds exactly on the `draw` event. -/
def Event.isDraw : Event → Bool
  | .draw => true
  | _ => false

/-- Holds exactly on the `pageFinish` event. -/
def Event.isPageFinish : Event → Bool
  | .pageFinish => true
  | _ => false

/-- Holds exactly on `docFinish` events (a serialization attempt). -/
def Event.isDocFinish : Event → Bool
  | .docFinish _ => true
  | _ => false

/-- Holds exactly on a successful `docFinish` event. -/
def Event.isDocFinishOk : Event → Bool
  | .docFinish true => true
  | _ => false

/-- Holds exactly on `fsRead` events. -/
def Event.isFsRead : Event → Bool
  | .fsRead _ => true
  | _ => false

/-- Holds exactly on `fsWrite` events. -/
def Event.isFsWrite : Event → Bool
  | .fsWrite _ _ => true
  | _ => false

/-- Result of the command.  `ok` and `err` are the two variants of the
declared Rust return type `Result<String, String>`; `panic` is the
non-return taken by `.unwrap()` on a failed step, carrying the underlying
error text. -/
inductive Outcome where
  | ok : String → Outcome
  | err : String → Outcome
  | panic : String → Outcome
deriving DecidableEq

/-- Holds exactly on the `err` variant. -/
def Outcome.isErr : Outcome → Bool
  | .err _ => true
  | _ => false

/-- Holds exactly on the `panic` outcome. -/
def Outcome.isPanic : Outcome → Bool
  | .panic _ => true
  | _ => false

/-- Filesystem state: each path either holds a byte string or no file. -/
def FS : Type := String → Option (List Nat)

/-- Outcomes of the external collaborators for one invocation:
`fromWhOk w h` is whether `PageSettings::from_wh(w, h)` succeeds,
`finishResult pages` is the byte buffer (or error text) that
`Document::finish` produces for a document holding exactly `pages`, and
`writeErr path bytes` is the OS error text of `std::fs::write`, or `none`
on success.  A write that fails because the file cannot be created (for
example the parent directory of the destination does not exist) leaves the
filesystem unchanged. -/
structure Env where
  fromWhOk : ℚ → ℚ → Bool
  finishResult : List PageSettings → Except String (List Nat)
  writeErr : String → List Nat → Option String

/-- Embedding of `Path::new(&s).display().to_string()` for `s : String`.
A Rust `String` is valid UTF-8, `Path::new` copies the string unchanged,
and the path `Display` implementation only substitutes replacement
characters for invalid UTF-8, of which there is none; so the round trip is
the identity. -/
def pathDisplay (s : String) : String := s

/-- The five header bytes every PDF file starts with, spelling `%PDF-`. -/
def pdfHeader : List Nat := [37, 80, 68, 70, 45]

/-- Whether a byte string starts with the standard PDF header signature. -/
def hasPdfHeader (bytes : List Nat) : Prop := bytes.take 5 = pdfHeader

instance (bytes : List Nat) : Decidable (hasPdfHeader bytes) := by
  unfold hasPdfHeader; infer_instance

/-- Contract of the external library relied on by the success path: when
`Document::finish` succeeds, the buffer it returns is a syntactically
valid PDF, in particular it begins with the `%PDF-` signature.  The
library is an opaque collaborator, so this is a property of `Env`, not
something established by the code of this repository. -/
def Env.finishProducesPdf (env : Env) : Prop :=
  ∀ pages bytes, env.finishResult pages = Except.ok bytes → hasPdfHeader bytes

/-- Byte strings that the given environment recognises as the library
serialization of a document with exactly one 300×600 page, starting with
the PDF header: a minimal one-page 300×600 PDF under the library contract. -/
def onePagePdf (env : Env) (bytes : List Nat) : Prop :=
  env.finishResult [⟨300, 600⟩] = Except.ok bytes ∧ hasPdfHeader bytes

/-- Panic text of the embedding when `PageSettings::from_wh` fails. -/
def fromWhPanicMsg : String := "PageSettings from_wh returned an error"

/-- Shallow embedding of `generate_pdf` (`commands.rs`, lines 7 to 29).
Returns the outcome, the filesystem after the call, and the trace of
external effects in program order.  Each `.unwrap()` of the source becomes
a `panic` outcome on the error case:

* `Document::new()` always succeeds and emits `docNew`;
* `PageSettings::from_wh(300.0, 600.0).unwrap()` panics when the library
  rejects the dimensions, before any page is started;
* `start_page_with` and `page.finish()` emit `pageStart` and `pageFinish`;
* `document.finish().unwrap()` emits `docFinish` and panics on error;
* `std::fs::write(path, &pdf).unwrap()` emits `fsWrite` and panics on
  error, leaving the filesystem unchanged; on success it maps the path to
  exactly the serialized bytes, replacing any previous file;
* `eprintln!` emits `log` with the displayed path;
* the single `return` is `Ok(path.display().to_string())`. -/
def generate_pdf (env : Env) (fs : FS) (file_path : String) :
    Outcome × FS × List Event :=
  if env.fromWhOk 300 600 then
    match env.finishResult [(⟨300, 600⟩ : PageSettings)] with
    | Except.error e =>
        (Outcome.panic e, fs,
         [Event.docNew, Event.pageStart ⟨300, 600⟩, Event.pageFinish,
          Event.docFinish false])
    | Except.ok pdf =>
        match env.writeErr file_path pdf with
        | some e =>
            (Outcome.panic e, fs,
             [Event.docNew, Event.pageStart ⟨300, 600⟩, Event.pageFinish,
              Event.docFinish true, Event.fsWrite file_path pdf])
        | none =>
            (Outcome.ok (pathDisplay file_path),
             fun q => if q = file_path then some pdf else fs q,
             [Event.docNew, Event.pageStart ⟨300, 600⟩, Event.pageFinish,
              Event.docFinish true, Event.fsWrite file_path pdf,
              Event.log (pathDisplay file_path)])
  else
    (Outcome.panic fromWhPanicMsg, fs, [Event.docNew])

/-- An empty filesystem: no path holds a file. -/
def fs0 : FS := fun _ => none

/-- A concrete byte buffer standing for a serialized minimal PDF. -/
def samplePdf : List Nat := pdfHeader ++ [49, 46, 55]

/-- A concrete environment in which every external step succeeds and the
library honours its contract. -/
def libOkEnv : Env :=
  { fromWhOk := fun _ _ => true
    finishResult := fun _ => Except.ok samplePdf
    writeErr := fun _ _ => none }

/-- OS error text for a destination whose parent directory does not exist. -/
def osErrNoSuchDir : String := "No such file or directory (os error 2)"

/-- A concrete environment in which the filesystem write fails the way it
does when the parent directory of the destination does not exist. -/
def badWriteEnv : Env :=
  { fromWhOk := fun _ _ => true
    finishResult := fun _ => Except.ok samplePdf
    writeErr := fun _ _ => some osErrNoSuchDir }

/-- A destination path whose parent directory does not exist. -/
def badPath : String := "/nonexistent-dir/out.pdf"

/-- A destination path in a writable directory. -/
def tmpPath : String := "/tmp/out.pdf"

/-- Exhaustive case analysis of one invocation: the from_wh panic, the
serialization panic, the write panic, and the success case, each with the
exact outcome, filesystem, and trace. -/
lemma generate_pdf_spec (env : Env) (fs : FS) (p : String) :
    (env.fromWhOk 300 600 = false ∧
      generate_pdf env fs p =
        (Outcome.panic fromWhPanicMsg, fs, [Event.docNew])) ∨
    (∃ e, env.fromWhOk 300 600 = true ∧
      env.finishResult [(⟨300, 600⟩ : PageSettings)] = Except.error e ∧
      generate_pdf env fs p =
        (Outcome.panic e, fs,
         [Event.docNew, Event.pageStart ⟨300, 600⟩, Event.pageFinish,
          Event.docFinish false])) ∨
    (∃ pdf e, env.fromWhOk 300 600 = true ∧
      env.finishResult [(⟨300, 600⟩ : PageSettings)] = Except.ok pdf ∧
      env.writeErr p pdf = some e ∧
      generate_pdf env fs p =
        (Outcome.panic e, fs,
         [Event.docNew, Event.pageStart ⟨300, 600⟩, Event.pageFinish,
          Event.docFinish true, Event.fsWrite p pdf])) ∨
    (∃ pdf, env.fromWhOk 300 600 = true ∧
      env.finishResult [(⟨300, 600⟩ : PageSettings)] = Except.ok pdf ∧
      env.writeErr p pdf = none ∧
      generate_pdf env fs p =
        (Outcome.ok (pathDisplay p),
         fun q => if q = p then some pdf else fs q,
         [Event.docNew, Event.pageStart ⟨300, 600⟩, Event.pageFinish,
          Event.docFinish true, Event.fsWrite p pdf,
          Event.log (pathDisplay p)])) := by
  unfold generate_pdf
  cases hw : env.fromWhOk 300 600 with
  | false => exact Or.inl ⟨rfl, by simp⟩
  | true =>
    cases hf : env.finishResult [(⟨300, 600⟩ : PageSettings)] with
    | error e => exact Or.inr (Or.inl ⟨e, rfl, rfl, by simp⟩)
    | ok pdf =>
      cases hwr : env.writeErr p pdf with
      | some e =>
        exact Or.inr (Or.inr (Or.inl ⟨pdf, e, rfl, rfl, hwr, by simp [hwr]⟩))
      | none =>
        exact Or.inr (Or.inr (Or.inr ⟨pdf, rfl, rfl, hwr, by simp [hwr]⟩))

/-- The concrete all-success environment honours the library contract. -/
lemma libOkEnv_contract : libOkEnv.finishProducesPdf := by
  intro pages bytes h
  injection h with h
  subst h
  decide

/-- C1: the claim states that when the write (or any earlier step) fails,
`generate_pdf` returns the `Err` variant of `Result<String, String>` with a
human-readable message.  The code instead calls `.unwrap()` at every
fallible step: at a concrete input whose filesystem write fails, the call
ends in a panic and does not produce the `Err` variant. -/
theorem generate_pdf_write_failure_panics_not_err :
    (generate_pdf badWriteEnv fs0 badPath).1 = Outcome.panic osErrNoSuchDir ∧
      ((generate_pdf badWriteEnv fs0 badPath).1).isErr = false :=
  ⟨rfl, rfl⟩

/-- C2: at a concrete destination whose parent directory does not exist,
no file is created at the path (that part of the claim holds on the code),
but the call panics rather than failing with the `Err` variant carrying
the OS error text. -/
theorem generate_pdf_nonexistent_dir_no_file_but_panic :
    (generate_pdf badWriteEnv fs0 badPath).2.1 badPath = none ∧
      (generate_pdf badWriteEnv fs0 badPath).1 = Outcome.panic osErrNoSuchDir ∧
      ((generate_pdf badWriteEnv fs0 badPath).1).isErr = false :=
  ⟨rfl, rfl, rfl⟩

/-- C3: when every step of the pipeline succeeds, `generate_pdf` returns
`Ok` holding the displayed form of the destination path. -/
theorem generate_pdf_success_returns_displayed_path
    (env : Env) (fs : FS) (p : String) (pdf : List Nat)
    (h1 : env.fromWhOk 300 600 = true)
    (h2 : env.finishResult [(⟨300, 600⟩ : PageSettings)] = Except.ok pdf)
    (h3 : env.writeErr p pdf = none) :
    (generate_pdf env fs p).1 = Outcome.ok (pathDisplay p) := by
  rcases generate_pdf_spec env fs p with ⟨hw, hE⟩ | ⟨e, hw, hf, hE⟩ |
    ⟨q, e, hw, hf, hwr, hE⟩ | ⟨q, hw, hf, hwr, hE⟩
  · rw [h1] at hw; exact absurd hw (by simp)
  · rw [h2] at hf; exact absurd hf (by simp)
  · rw [h2] at hf
    injection hf with hq
    subst hq
    rw [h3] at hwr
    exact absurd hwr (by simp)
  · rw [hE]

/-- Witness for C3: at the all-success environment and the path
`/tmp/out.pdf`, the hypotheses hold by evaluation and the result is
`Ok` of the displayed path. -/
theorem generate_pdf_success_returns_displayed_path_witness :
    libOkEnv.fromWhOk 300 600 = true ∧
      libOkEnv.finishResult [(⟨300, 600⟩ : PageSettings)] = Except.ok samplePdf ∧
      libOkEnv.writeErr tmpPath samplePdf = none ∧
      (generate_pdf libOkEnv fs0 tmpPath).1 = Outcome.ok (pathDisplay tmpPath) :=
  ⟨rfl, rfl, rfl,
    generate_pdf_success_returns_displayed_path libOkEnv fs0 tmpPath samplePdf rfl rfl rfl⟩

/-- C4: when every step succeeds and the library honours its contract, the
call returns `Ok`, the file at the destination afterwards holds exactly the
byte buffer produced by finalizing the document, and that buffer is the
library serialization of a document with exactly one 300×600 page,
beginning with the PDF header signature. -/
theorem generate_pdf_success_writes_one_page_pdf
    (env : Env) (fs : FS) (p : String) (pdf : List Nat)
    (hlib : env.finishProducesPdf)
    (h1 : env.fromWhOk 300 600 = true)
    (h2 : env.finishResult [(⟨300, 600⟩ : PageSettings)] = Except.ok pdf)
    (h3 : env.writeErr p pdf = none) :
    (generate_pdf env fs p).1 = Outcome.ok (pathDisplay p) ∧
      (generate_pdf env fs p).2.1 p = some pdf ∧ onePagePdf env pdf := by
  rcases generate_pdf_spec env fs p with ⟨hw, hE⟩ | ⟨e, hw, hf, hE⟩ |
    ⟨q, e, hw, hf, hwr, hE⟩ | ⟨q, hw, hf, hwr, hE⟩
  · rw [h1] at hw; exact absurd hw (by simp)
  · rw [h2] at hf; exact absurd hf (by simp)
  · rw [h2] at hf
    injection hf with hq
    subst hq
    rw [h3] at hwr
    exact absurd hwr (by simp)
  · rw [h2] at hf
    injection hf with hq
    subst hq
    exact ⟨by rw [hE], by simp [hE], h2, hlib _ _ h2⟩

/-- Witness for C4: at the all-success environment and `/tmp/out.pdf`, the
hypotheses hold by evaluation and the conclusion follows. -/
theorem generate_pdf_success_writes_one_page_pdf_witness :
    libOkEnv.finishProducesPdf ∧
      libOkEnv.fromWhOk 300 600 = true ∧
      libOkEnv.finishResult [(⟨300, 600⟩ : PageSettings)] = Except.ok samplePdf ∧
      libOkEnv.writeErr tmpPath samplePdf = none ∧
      ((generate_pdf libOkEnv fs0 tmpPath).1 = Outcome.ok (pathDisplay tmpPath) ∧
        (generate_pdf libOkEnv fs0 tmpPath).2.1 tmpPath = some samplePdf ∧
        onePagePdf libOkEnv samplePdf) :=
  ⟨libOkEnv_contract, rfl, rfl, rfl,
    generate_pdf_success_writes_one_page_pdf libOkEnv fs0 tmpPath samplePdf
      libOkEnv_contract rfl rfl rfl⟩

/-- C5: on every invocation, every page opened on the document is
configured with exactly width 300 and height 600, at most one page is
opened, and no content is ever drawn. -/
theorem generate_pdf_page_fixed_size_and_blank (env : Env) (fs : FS) (p : String) :
    (∀ s, Event.pageStart s ∈ (generate_pdf env fs p).2.2 →
        s = (⟨300, 600⟩ : PageSettings)) ∧
      ((generate_pdf env fs p).2.2).countP Event.isPageStart ≤ 1 ∧
      ((generate_pdf env fs p).2.2).countP Event.isDraw = 0 := by
  rcases generate_pdf_spec env fs p with ⟨hw, hE⟩ | ⟨e, hw, hf, hE⟩ |
    ⟨q, e, hw, hf, hwr, hE⟩ | ⟨q, hw, hf, hwr, hE⟩ <;>
    rw [hE] <;>
    refine ⟨?_, ?_, ?_⟩ <;>
    simp [List.countP_cons, Event.isPageStart, Event.isDraw]

/-- C6: when the page settings are accepted (as they are for the valid
fixed dimensions), the trace holds exactly one document creation, exactly
one page start, exactly one serialization attempt, at most one file write,
and the serialization comes after the page is finished. -/
theorem generate_pdf_one_document_one_page_one_serialize
    (env : Env) (fs : FS) (p : String) (h : env.fromWhOk 300 600 = true) :
    ((generate_pdf env fs p).2.2).countP Event.isDocNew = 1 ∧
      ((generate_pdf env fs p).2.2).countP Event.isPageStart = 1 ∧
      ((generate_pdf env fs p).2.2).countP Event.isDocFinish = 1 ∧
      ((generate_pdf env fs p).2.2).countP Event.isFsWrite ≤ 1 ∧
      ((generate_pdf env fs p).2.2).findIdx Event.isPageFinish <
        ((generate_pdf env fs p).2.2).findIdx Event.isDocFinish := by
  rcases generate_pdf_spec env fs p with ⟨hw, hE⟩ | ⟨e, hw, hf, hE⟩ |
    ⟨q, e, hw, hf, hwr, hE⟩ | ⟨q, hw, hf, hwr, hE⟩
  · rw [h] at hw; exact absurd hw (by simp)
  · rw [hE]; exact ⟨rfl, rfl, rfl, Nat.zero_le 1, Nat.lt_succ_self 2⟩
  · rw [hE]; exact ⟨rfl, rfl, rfl, Nat.le_refl 1, Nat.lt_succ_self 2⟩
  · rw [hE]; exact ⟨rfl, rfl, rfl, Nat.le_refl 1, Nat.lt_succ_self 2⟩

/-- Witness for C6: at the all-success environment and `/tmp/out.pdf`, the
hypothesis holds by evaluation and the trace counts follow. -/
theorem generate_pdf_one_document_one_page_one_serialize_witness :
    libOkEnv.fromWhOk 300 600 = true ∧
      (((generate_pdf libOkEnv fs0 tmpPath).2.2).countP Event.isDocNew = 1 ∧
        ((generate_pdf libOkEnv fs0 tmpPath).2.2).countP Event.isPageStart = 1 ∧
        ((generate_pdf libOkEnv fs0 tmpPath).2.2).countP Event.isDocFinish = 1 ∧
        ((generate_pdf libOkEnv fs0 tmpPath).2.2).countP Event.isFsWrite ≤ 1 ∧
        ((generate_pdf libOkEnv fs0 tmpPath).2.2).findIdx Event.isPageFinish <
          ((generate_pdf libOkEnv fs0 tmpPath).2.2).findIdx Event.isDocFinish) :=
  ⟨rfl, generate_pdf_one_document_one_page_one_serialize libOkEnv fs0 tmpPath rfl⟩

/-- C7: the filesystem is unchanged away from the destination path, every
write event in the trace targets the destination, no read event ever
occurs, any write comes only after a successful serialization, and when no
write happened the filesystem is exactly the one before the call. -/
theorem generate_pdf_filesystem_frame (env : Env) (fs : FS) (p : String) :
    (∀ q, q ≠ p → (generate_pdf env fs p).2.1 q = fs q) ∧
      (∀ path bytes,
        Event.fsWrite path bytes ∈ (generate_pdf env fs p).2.2 → path = p) ∧
      ((generate_pdf env fs p).2.2).countP Event.isFsRead = 0 ∧
      (((generate_pdf env fs p).2.2).any Event.isFsWrite = true →
        ((generate_pdf env fs p).2.2).findIdx Event.isDocFinishOk <
          ((generate_pdf env fs p).2.2).findIdx Event.isFsWrite) ∧
      (((generate_pdf env fs p).2.2).any Event.isFsWrite = false →
        (generate_pdf env fs p).2.1 = fs) := by
  rcases generate_pdf_spec env fs p with ⟨hw, hE⟩ | ⟨e, hw, hf, hE⟩ |
    ⟨b, e, hw, hf, hwr, hE⟩ | ⟨b, hw, hf, hwr, hE⟩ <;> rw [hE]
  · refine ⟨fun q hq => rfl, ?_, rfl, ?_, fun _ => rfl⟩
    · intro path bytes hmem
      simp at hmem
    · intro hany
      simp [Event.isFsWrite] at hany
  · refine ⟨fun q hq => rfl, ?_, rfl, ?_, fun _ => rfl⟩
    · intro path bytes hmem
      simp at hmem
    · intro hany
      simp [Event.isFsWrite] at hany
  · refine ⟨fun q hq => rfl, ?_, rfl, fun _ => Nat.lt_succ_self 3, ?_⟩
    · intro path bytes hmem
      simp at hmem
      exact hmem.1
    · intro hany
      simp [Event.isFsWrite] at hany
  · refine ⟨fun q hq => by simp [hq], ?_, rfl, fun _ => Nat.lt_succ_self 3, ?_⟩
    · intro path bytes hmem
      simp at hmem
      exact hmem.1
    · intro hany
      simp [Event.isFsWrite] at hany

/-- C8: running the command a second time on the filesystem produced by a
first run gives the same outcome, the same trace, and the same file
contents at the destination as a single run: the write overwrites, nothing
accumulates, and the second result does not depend on the first. -/
theorem generate_pdf_idempotent (env : Env) (fs : FS) (p : String) :
    (generate_pdf env ((generate_pdf env fs p).2.1) p).1 =
        (generate_pdf env fs p).1 ∧
      (generate_pdf env ((generate_pdf env fs p).2.1) p).2.1 p =
        (generate_pdf env fs p).2.1 p ∧
      (generate_pdf env ((generate_pdf env fs p).2.1) p).2.2 =
        (generate_pdf env fs p).2.2 := by
  rcases generate_pdf_spec env fs p with ⟨hw, hE⟩ | ⟨e, hw, hf, hE⟩ |
    ⟨b, e, hw, hf, hwr, hE⟩ | ⟨b, hw, hf, hwr, hE⟩
  · simp [hE]
  · simp [hE]
  · simp [hE]
  · simp [hE, generate_pdf, hw, hf, hwr]

/-- C9: the command never produces the `Err` variant of its declared
return type: every invocation either returns `Ok` of the displayed path or
ends in a panic raised by one of the `.unwrap()` calls. -/
theorem generate_pdf_never_returns_err (env : Env) (fs : FS) (p : String) :
    ((generate_pdf env fs p).1).isErr = false ∧
      ((generate_pdf env fs p).1 = Outcome.ok (pathDisplay p) ∨
        ∃ m, (generate_pdf env fs p).1 = Outcome.panic m) := by
  rcases generate_pdf_spec env fs p with ⟨hw, hE⟩ | ⟨e, hw, hf, hE⟩ |
    ⟨b, e, hw, hf, hwr, hE⟩ | ⟨b, hw, hf, hwr, hE⟩
  · exact ⟨by rw [hE]; rfl, Or.inr ⟨fromWhPanicMsg, by rw [hE]⟩⟩
  · exact ⟨by rw [hE]; rfl, Or.inr ⟨e, by rw [hE]⟩⟩
  · exact ⟨by rw [hE]; rfl, Or.inr ⟨e, by rw [hE]⟩⟩
  · exact ⟨by rw [hE]; rfl, Or.inl (by rw [hE])⟩

/-- C10: whenever the command returns `Ok s`, the string `s` is character
for character the input path, and the path display round trip performed by
the code is the identity on the (valid UTF-8) input. -/
theorem generate_pdf_ok_value_is_input_path
    (env : Env) (fs : FS) (p s : String)
    (h : (generate_pdf env fs p).1 = Outcome.ok s) :
    s = p ∧ pathDisplay p = p := by
  refine ⟨?_, rfl⟩
  rcases generate_pdf_spec env fs p with ⟨hw, hE⟩ | ⟨e, hw, hf, hE⟩ |
    ⟨b, e, hw, hf, hwr, hE⟩ | ⟨b, hw, hf, hwr, hE⟩
  · rw [hE] at h; exact absurd h (by simp)
  · rw [hE] at h; exact absurd h (by simp)
  · rw [hE] at h; exact absurd h (by simp)
  · rw [hE] at h
    injection h with h
    exact h.symm

/-- Witness for C10: at the all-success environment and `/tmp/out.pdf`,
the hypothesis holds by evaluation and the returned string is the input. -/
theorem generate_pdf_ok_value_is_input_path_witness :
    (generate_pdf libOkEnv fs0 tmpPath).1 = Outcome.ok tmpPath ∧
      (tmpPath = tmpPath ∧ pathDisplay tmpPath = tmpPath) :=
  ⟨rfl, generate_pdf_ok_value_is_input_path libOkEnv fs0 tmpPath tmpPath rfl⟩
